import Mathlib

/-!
Verification of the chess-autopost timing and timeline utilities.

JavaScript numbers are modelled as exact rationals (`ℚ`), frame counts as
integers (`ℤ`).  `Math.round x` agrees with Mathlib's `round` on `ℚ`
(`⌊x + 1/2⌋`), `Math.max`/`Math.min` are `max`/`min`.  A possibly-missing
`Record<string, number>` is `Option (String → Option ℚ)`: `none` for an
`undefined` record, and per-key `Option` for a missing key.
-/

namespace ChessAutopost

/-- A cue-time record: keyword to cue value, `none` when the key is absent. -/
def CueTimes : Type := String → Option ℚ

namespace Audio
/- Embedding of `src/apps/renderer/src/lib/audio.ts` (pure functions only). -/

/-- `calculateSceneDuration` from `audio.ts`:
`max(minDuration, min(maxDuration, audioDurationMs + paddingMs))`. -/
def calculateSceneDuration (audioDurationMs minDuration maxDuration paddingMs : ℚ) : ℚ :=
  let totalDuration := audioDurationMs + paddingMs
  max minDuration (min maxDuration totalDuration)

/-- `getCueTime` from `audio.ts`: the cue value (seconds) times 1000 when the
record exists and has the keyword; otherwise the raw `fallbackPercent`. -/
def getCueTime (cueTimes : Option CueTimes) (keyword : String) (fallbackPercent : ℚ) : ℚ :=
  match cueTimes with
  | some m =>
    match m keyword with
    | some t => t * 1000
    | none => fallbackPercent
  | none => fallbackPercent

/-- `timeToFrame` from `audio.ts`: `Math.round((timeMs / 1000) * fps)`. -/
def timeToFrame (timeMs fps : ℚ) : ℤ :=
  round (timeMs / 1000 * fps)

/-- `frameToTime` from `audio.ts`: `(frame / fps) * 1000`. -/
def frameToTime (frame : ℤ) (fps : ℚ) : ℚ :=
  (frame : ℚ) / fps * 1000

/-- Result record of `getAnimationTiming`. -/
structure AnimTiming where
  startFrame : ℤ
  endFrame : ℤ
  durationFrames : ℤ
deriving DecidableEq

/-- `getAnimationTiming` from `audio.ts`.  Note that `endFrame` and
`durationFrames` are computed from the raw (pre-`max 0`) start frame. -/
def getAnimationTiming (sceneDurationMs : ℚ) (cueTimes : Option CueTimes)
    (keyword : String) (fallbackPercent fps : ℚ) : AnimTiming :=
  let cueTimeMs := getCueTime cueTimes keyword fallbackPercent
  let startFrame := timeToFrame cueTimeMs fps
  let endFrame := timeToFrame sceneDurationMs fps
  let durationFrames := endFrame - startFrame
  { startFrame := max 0 startFrame
    endFrame := max (startFrame + 1) endFrame
    durationFrames := max 1 durationFrames }

/-- A scene as consumed by `estimateTotalDuration` (only `durationMs`). -/
structure SceneDur where
  durationMs : ℚ

/-- JavaScript `v || d` for an optionally-present number `v`:
`undefined` and `0` are falsy. -/
def orFalsy (v : Option ℚ) (d : ℚ) : ℚ :=
  match v with
  | some x => if x = 0 then d else x
  | none => d

/-- `estimateTotalDuration` from `audio.ts`.  The record is indexed by
`scene.durationMs` (a number key), so it is modelled as `ℚ → Option ℚ`. -/
def estimateTotalDuration (scenes : List SceneDur) (audioDurations : ℚ → Option ℚ) : ℚ :=
  scenes.foldl (fun totalMs scene =>
    totalMs + orFalsy (audioDurations scene.durationMs) scene.durationMs) 0

end Audio

namespace Browser
/- Embedding of `src/unnamed/part_005` (`audio-browser.ts`, browser-safe
timing helpers; pure functions only). -/

/-- `timeToFrame` from `audio-browser.ts` (same formula as `audio.ts`). -/
def timeToFrame (timeMs fps : ℚ) : ℤ :=
  round (timeMs / 1000 * fps)

/-- `frameToTime` from `audio-browser.ts`. -/
def frameToTime (frame : ℤ) (fps : ℚ) : ℚ :=
  (frame : ℚ) / fps * 1000

/-- `calculateSceneDuration` from `audio-browser.ts`. -/
def calculateSceneDuration (audioDurationMs minDuration maxDuration paddingMs : ℚ) : ℚ :=
  let total := audioDurationMs + paddingMs
  max minDuration (min maxDuration total)

/-- A scene as consumed by `computeSegments` (`id` and `durationMs`). -/
structure SceneIdDur where
  id : String
  durationMs : ℚ

/-- One output segment of `computeSegments` (`from` is `from_` in Lean). -/
structure Segment where
  id : String
  from_ : ℤ
  frames : ℤ
deriving DecidableEq

/-- The mapping body of `computeSegments`, with the running cursor made
explicit: `frames = Math.max(1, Math.round(durationMs * fps / 1000))`,
`from = cursor`, and the cursor advances by `frames`. -/
def computeSegmentsFrom (fps : ℚ) (cursor : ℤ) : List SceneIdDur → List Segment
  | [] => []
  | s :: rest =>
    let frames := max 1 (round (s.durationMs * fps / 1000))
    { id := s.id, from_ := cursor, frames := frames } ::
      computeSegmentsFrom fps (cursor + frames) rest

/-- `computeSegments` from `audio-browser.ts`: cursor starts at 0. -/
def computeSegments (scenes : List SceneIdDur) (fps : ℚ) : List Segment :=
  computeSegmentsFrom fps 0 scenes

/-- `getAnimationTiming` from `audio-browser.ts`: the fallback is
`sceneDurationMs * fallbackPercent`, and `endFrame`/`durationFrames` use the
already-clamped start frame. -/
def getAnimationTiming (sceneDurationMs : ℚ) (cueTimes : Option CueTimes)
    (keyword : String) (fallbackPercent fps : ℚ) : Audio.AnimTiming :=
  let startMs :=
    match cueTimes with
    | some m =>
      match m keyword with
      | some t => t * 1000
      | none => sceneDurationMs * fallbackPercent
    | none => sceneDurationMs * fallbackPercent
  let startFrame := max 0 (timeToFrame startMs fps)
  let endFrame := max (startFrame + 1) (timeToFrame sceneDurationMs fps)
  let durationFrames := max 1 (endFrame - startFrame)
  { startFrame := startFrame, endFrame := endFrame, durationFrames := durationFrames }

end Browser

namespace Timeline
/- Embedding of `src/unnamed/part_006` (timeline type declarations). -/

/-- A board square, e.g. `"e4"`. -/
def Sq : Type := String

/-- `Attacked` from the timeline types. -/
structure Attacked where
  white : List Sq
  black : List Sq

/-- `SceneAlt` from the timeline types: `cp?: number` and
`mate?: number | null` are two independent optional fields (`none` models
both `undefined` and `null`); nothing in the type makes them exclusive. -/
structure SceneAlt where
  id : String
  label : String
  pv : List String
  arrows : List (Sq × Sq)
  attacked : Attacked
  cp : Option ℚ
  mate : Option ℚ
  durationMs : ℚ
  multipv : ℚ
  cueTimes : Option CueTimes

end Timeline

namespace Preview
/- Embedding of the evaluation-display logic of the two `SceneAltPreview`
components in `src/apps/renderer/src/scenes/SceneAltPreview.tsx`. -/

/-- JavaScript truthiness of an optional number (`undefined`, `null` and `0`
are falsy). -/
def truthyNum (v : Option ℚ) : Bool :=
  match v with
  | some x => decide (x ≠ 0)
  | none => false

/-- First `SceneAltPreview`: the centipawn line renders under
`{scene.cp && ...}`. -/
def sceneAltShowsCp (s : Timeline.SceneAlt) : Bool :=
  truthyNum s.cp

/-- First `SceneAltPreview`: the mate line renders under
`{scene.mate && ...}`, independently of `cp`. -/
def sceneAltShowsMate (s : Timeline.SceneAlt) : Bool :=
  truthyNum s.mate

/-- Second (browser) `SceneAltPreview`: `cpText` is a non-null string exactly
when `typeof scene.cp === 'number'`, and the centipawn line renders under
`{cpText && ...}`. -/
def browserSceneAltShowsCp (s : Timeline.SceneAlt) : Bool :=
  s.cp.isSome

/-- Second (browser) `SceneAltPreview`: the mate line renders under
`{!cpText && scene.mate && ...}`. -/
def browserSceneAltShowsMate (s : Timeline.SceneAlt) : Bool :=
  !s.cp.isSome && truthyNum s.mate

end Preview

namespace Align
/- Word-level alignment data (`AlignmentData` in `audio.ts`) and the Cue
Synchronizer's confidence filter. -/

/-- One aligned word from `AlignmentData.words` in `audio.ts`
(`end` is `end_` in Lean). -/
structure AlignWord where
  word : String
  start : ℚ
  end_ : ℚ
  confidence : ℚ

/-- Modelled from the spec: the Cue Synchronizer, which merges word-level
alignment into keyword cue times, is not under `src/` (only the
`AlignmentData` declaration and the cue consumers are).  Per the spec it
"ignores words below a confidence floor": a keyword's cue time is the start
offset of the first word matching the keyword whose confidence is at least
the floor, and absent when no such word exists. -/
def buildKeywordCues (words : List AlignWord) (floor : ℚ) : CueTimes :=
  fun keyword =>
    ((words.filter fun w => w.word == keyword && floor ≤ w.confidence).head?).map
      AlignWord.start

end Align

/-- Specification-side Bool predicate: the `keyword`-relevant words of an
alignment entry all lie strictly below the confidence floor. -/
def Align.allBelowFloor (words : List Align.AlignWord) (floor : ℚ) (keyword : String) : Bool :=
  words.all fun w => !(w.word == keyword) || decide (w.confidence < floor)

/-- Specification-side Bool predicate: no scene's `durationMs` collides with a
nonzero entry of the audio-durations record — the entry at that key is either
absent or 0 (a 0 entry is falsy in JavaScript, so `||` falls back to the
scene's own duration). -/
def Audio.noNonzeroDurationKeyHit (scenes : List Audio.SceneDur) (ad : ℚ → Option ℚ) : Bool :=
  scenes.all fun s => (ad s.durationMs).getD 0 == 0

/-- Specification-side Bool checker for segment contiguity: the first segment
starts at `cursor` and each subsequent segment starts at the previous
segment's start plus its frame count. -/
def Browser.contiguousFrom (cursor : ℤ) : List Browser.Segment → Bool
  | [] => true
  | s :: rest => (s.from_ == cursor) && Browser.contiguousFrom (cursor + s.frames) rest

/-- An audio-durations record whose only entry, at key `1000`, has value 0
(falsy in JavaScript). -/
def Audio.zeroCollidingDurations : ℚ → Option ℚ := fun k => if k = 1000 then some 0 else none

/-- A cue-time record mapping the keyword `"x"` to 5 (seconds). -/
def cueMapX : CueTimes := fun k => if k = "x" then some 5 else none

/-- An audio-durations record whose key `1000` (a duration value, not a scene
identifier) is present with value 1. -/
def Audio.collidingDurations : ℚ → Option ℚ := fun k => if k = 1000 then some 1 else none

/- Helper lemmas. -/

theorem round_le_round_of_le {x y : ℚ} (h : x ≤ y) : round x ≤ round y := by
  rw [round_eq, round_eq]
  exact Int.floor_le_floor (by linarith)

theorem Audio.estimateTotalDuration_foldl (scenes : List Audio.SceneDur)
    (ad : ℚ → Option ℚ) (init : ℚ) :
    scenes.foldl (fun totalMs scene =>
      totalMs + Audio.orFalsy (ad scene.durationMs) scene.durationMs) init =
    init + (scenes.map fun s => Audio.orFalsy (ad s.durationMs) s.durationMs).sum := by
  induction scenes generalizing init with
  | nil => simp
  | cons s rest ih => simp [List.foldl_cons, ih]; ring

theorem Browser.contiguousFrom_computeSegmentsFrom (fps : ℚ) (scenes : List Browser.SceneIdDur)
    (cursor : ℤ) :
    Browser.contiguousFrom cursor (Browser.computeSegmentsFrom fps cursor scenes) = true := by
  induction scenes generalizing cursor with
  | nil => rfl
  | cons s rest ih =>
    simp [Browser.computeSegmentsFrom, Browser.contiguousFrom, ih]

theorem Browser.computeSegmentsFrom_frames (fps : ℚ) (scenes : List Browser.SceneIdDur)
    (cursor : ℤ) :
    (Browser.computeSegmentsFrom fps cursor scenes).all
      (fun seg => decide (1 ≤ seg.frames)) = true := by
  induction scenes generalizing cursor with
  | nil => rfl
  | cons s rest ih =>
    simp only [Browser.computeSegmentsFrom, List.all_cons, Bool.and_eq_true, decide_eq_true_eq]
    exact ⟨le_max_left _ _, ih _⟩

/- Claim theorems. -/

/-- C2: the two `getAnimationTiming` helpers do NOT apply the
fraction-of-duration fallback uniformly.  At scene duration 2000 ms, no cue
map, fallback 1/2 and 30 fps, `audio.ts` treats the fallback 1/2 as
milliseconds and starts at frame 0, while the browser helper treats it as a
fraction of the scene duration and starts at frame 30, so the two results
differ. -/
theorem getAnimationTiming_fallback_divergence :
    (Audio.getAnimationTiming 2000 none "x" (1/2) 30).startFrame = 0 ∧
    (Browser.getAnimationTiming 2000 none "x" (1/2) 30).startFrame = 30 ∧
    Audio.getAnimationTiming 2000 none "x" (1/2) 30 ≠
      Browser.getAnimationTiming 2000 none "x" (1/2) 30 := by
  refine ⟨?_, ?_, ?_⟩
  · norm_num [Audio.getAnimationTiming, Audio.getCueTime, Audio.timeToFrame, round_eq]
  · norm_num [Browser.getAnimationTiming, Browser.timeToFrame, round_eq]
  · intro h
    have h0 : (Audio.getAnimationTiming 2000 none "x" (1/2) 30).startFrame = 0 := by
      norm_num [Audio.getAnimationTiming, Audio.getCueTime, Audio.timeToFrame, round_eq]
    have h30 : (Browser.getAnimationTiming 2000 none "x" (1/2) 30).startFrame = 30 := by
      norm_num [Browser.getAnimationTiming, Browser.timeToFrame, round_eq]
    rw [h] at h0
    rw [h0] at h30
    exact absurd h30 (by norm_num)

/-- C3: in `audio.ts`, a cue-resolution call with no entry for the keyword
resolves the cue start time to the raw `fallbackPercent` (here 1/2 ms), not
to `fallbackPercent * sceneDurationMs` (here 1000 ms for a 2000 ms scene);
when an entry is present its value is converted from seconds to
milliseconds (5 s becomes 5000 ms). -/
theorem getCueTime_fallback_unscaled :
    Audio.getCueTime none "x" (1/2) = 1/2 ∧
    (1/2 : ℚ) ≠ 1/2 * 2000 ∧
    Audio.getCueTime (some cueMapX) "x" (1/2) = 5000 := by
  refine ⟨?_, by norm_num, ?_⟩
  · norm_num [Audio.getCueTime]
  · norm_num [Audio.getCueTime, cueMapX]

/-- C4: `calculateSceneDuration` equals
`clamp(audioDurationMs + paddingMs, minDuration, maxDuration)` and, whenever
`minDuration ≤ maxDuration`, its result lies within
`[minDuration, maxDuration]`; the browser copy computes the same value. -/
theorem calculateSceneDuration_within_bounds (a mn mx p : ℚ) (h : mn ≤ mx) :
    Audio.calculateSceneDuration a mn mx p = max mn (min mx (a + p)) ∧
    mn ≤ Audio.calculateSceneDuration a mn mx p ∧
    Audio.calculateSceneDuration a mn mx p ≤ mx ∧
    Browser.calculateSceneDuration a mn mx p = Audio.calculateSceneDuration a mn mx p := by
  refine ⟨rfl, le_max_left _ _, ?_, rfl⟩
  exact max_le h (min_le_left _ _)

/-- C4 witness: measured audio 900 ms with padding 150 ms and bounds
[1200, 2500] ms resolves to 1200 ms, within the bounds. -/
theorem calculateSceneDuration_within_bounds_witness :
    (1200 : ℚ) ≤ 2500 ∧
    1200 ≤ Audio.calculateSceneDuration 900 1200 2500 150 ∧
    Audio.calculateSceneDuration 900 1200 2500 150 ≤ 2500 ∧
    Audio.calculateSceneDuration 900 1200 2500 150 = 1200 := by
  have h := calculateSceneDuration_within_bounds 900 1200 2500 150 (by norm_num)
  exact ⟨by norm_num, h.2.1, h.2.2.1, h.1.trans (by norm_num)⟩

/-- C9: every segment produced by `computeSegments` has a frame count of at
least one (`frames = max(1, round(durationMs * fps / 1000))`), for every
scene list and frame rate. -/
theorem computeSegments_min_one_frame (scenes : List Browser.SceneIdDur) (fps : ℚ) :
    (Browser.computeSegments scenes fps).all (fun seg => decide (1 ≤ seg.frames)) = true :=
  Browser.computeSegmentsFrom_frames fps scenes 0

/-- C10: converting a frame number to a time in milliseconds and back at the
same positive frame rate recovers the original frame exactly. -/
theorem timeToFrame_frameToTime_roundtrip (f : ℕ) (fps : ℚ) (h : 0 < fps) :
    Audio.timeToFrame (Browser.frameToTime (f : ℤ) fps) fps = f := by
  have hne : fps ≠ 0 := ne_of_gt h
  have hval : Browser.frameToTime (f : ℤ) fps / 1000 * fps = (f : ℚ) := by
    unfold Browser.frameToTime
    field_simp
    ring
  unfold Audio.timeToFrame
  rw [hval]
  exact round_natCast f

/-- C1: `getAnimationTiming` (from `audio.ts`) does NOT clamp the resolved
cue start into `[0, sceneDurationMs)`: for a 1000 ms scene with an alignment
timestamp of 5 s for the keyword, the start frame is 150 — far beyond the
scene's last frame 30 — and the corresponding start offset of 5000 ms is not
below the 1000 ms scene duration. -/
theorem getAnimationTiming_no_upper_clamp :
    (Audio.getAnimationTiming 1000 (some cueMapX) "x" (1/2) 30).startFrame = 150 ∧
    Audio.timeToFrame 1000 30 = 30 ∧
    Audio.frameToTime 150 30 = 5000 ∧
    ¬ ((5000 : ℚ) < 1000) := by
  refine ⟨?_, ?_, ?_, by norm_num⟩
  · norm_num [Audio.getAnimationTiming, Audio.getCueTime, Audio.timeToFrame, round_eq, cueMapX]
  · norm_num [Audio.timeToFrame, round_eq]
  · norm_num [Audio.frameToTime]

/-- C1 (amended): the resolved start frame is clamped below at 0 and
resolution is total; and whenever the resolved cue time is nonnegative, at
most the scene duration, and the frame rate is nonnegative, the start frame
lies within `[0, timeToFrame(sceneDurationMs)]`.  A cue time beyond the
scene duration is not clamped (see the counterexample). -/
theorem getAnimationTiming_start_bounds (sceneDurationMs : ℚ) (cueTimes : Option CueTimes)
    (keyword : String) (fallbackPercent fps : ℚ)
    (hfps : 0 ≤ fps)
    (hc0 : 0 ≤ Audio.getCueTime cueTimes keyword fallbackPercent)
    (hcs : Audio.getCueTime cueTimes keyword fallbackPercent ≤ sceneDurationMs) :
    0 ≤ (Audio.getAnimationTiming sceneDurationMs cueTimes keyword fallbackPercent fps).startFrame ∧
    (Audio.getAnimationTiming sceneDurationMs cueTimes keyword fallbackPercent fps).startFrame ≤
      Audio.timeToFrame sceneDurationMs fps := by
  have hs0 : (0 : ℚ) ≤ sceneDurationMs := hc0.trans hcs
  unfold Audio.getAnimationTiming
  refine ⟨le_max_left 0 _, ?_⟩
  apply max_le
  · unfold Audio.timeToFrame
    have h0 : (0 : ℚ) ≤ sceneDurationMs / 1000 * fps :=
      mul_nonneg (div_nonneg hs0 (by norm_num)) hfps
    have := round_le_round_of_le h0
    simpa using this
  · unfold Audio.timeToFrame
    apply round_le_round_of_le
    gcongr

/-- C1 witness: a 10000 ms scene with cue timestamp 5 s resolves to start
frame 150, within `[0, 300]`. -/
theorem getAnimationTiming_start_bounds_witness :
    (0 : ℚ) ≤ 30 ∧
    0 ≤ Audio.getCueTime (some cueMapX) "x" (1/2) ∧
    Audio.getCueTime (some cueMapX) "x" (1/2) ≤ 10000 ∧
    (0 ≤ (Audio.getAnimationTiming 10000 (some cueMapX) "x" (1/2) 30).startFrame ∧
     (Audio.getAnimationTiming 10000 (some cueMapX) "x" (1/2) 30).startFrame ≤
       Audio.timeToFrame 10000 30) :=
  ⟨by norm_num, by norm_num [Audio.getCueTime, cueMapX], by norm_num [Audio.getCueTime, cueMapX],
   getAnimationTiming_start_bounds 10000 (some cueMapX) "x" (1/2) 30 (by norm_num)
     (by norm_num [Audio.getCueTime, cueMapX]) (by norm_num [Audio.getCueTime, cueMapX])⟩

/-- C6: `estimateTotalDuration` does NOT always return the sum of the
scenes' durations: the audio-durations record is indexed by
`scene.durationMs` (a duration value used as a key), so a single scene of
duration 1000 ms with a record entry keyed `1000` of value 1 totals 1 ms,
not 1000 ms. -/
theorem estimateTotalDuration_duration_key_collision :
    Audio.estimateTotalDuration [⟨1000⟩] Audio.collidingDurations = 1 ∧
    ([(⟨1000⟩ : Audio.SceneDur)].map Audio.SceneDur.durationMs).sum = 1000 ∧
    (1 : ℚ) ≠ 1000 := by
  refine ⟨?_, by simp, by norm_num⟩
  norm_num [Audio.estimateTotalDuration, Audio.orFalsy, Audio.collidingDurations]

/-- C6 (amended): when no scene's `durationMs` collides with a nonzero entry
of the audio-durations record (the entry at that key is absent or 0, which is
falsy), `estimateTotalDuration` returns exactly the sum of the scenes'
durations; and the segments produced by `computeSegments` are contiguous in
scene order — the first starts at frame 0 and each subsequent segment starts
at the previous segment's start plus its frame count. -/
theorem timeline_sum_and_segments_contiguous (scenes : List Audio.SceneDur)
    (ad : ℚ → Option ℚ) (scenes2 : List Browser.SceneIdDur) (fps : ℚ)
    (h : Audio.noNonzeroDurationKeyHit scenes ad = true) :
    Audio.estimateTotalDuration scenes ad = (scenes.map Audio.SceneDur.durationMs).sum ∧
    Browser.contiguousFrom 0 (Browser.computeSegments scenes2 fps) = true := by
  constructor
  · unfold Audio.estimateTotalDuration
    rw [Audio.estimateTotalDuration_foldl, zero_add]
    congr 1
    apply List.map_congr_left
    intro s hs
    have hz := List.all_eq_true.mp h s hs
    rw [beq_iff_eq] at hz
    unfold Audio.orFalsy
    cases hd : ad s.durationMs with
    | none => rfl
    | some x =>
      rw [hd] at hz
      simp only [Option.getD_some] at hz
      simp [hz]
  · exact Browser.contiguousFrom_computeSegmentsFrom fps scenes2 0

/-- C6 witness: scenes of 1000 ms and 500 ms with an audio-durations record
whose only entry, at the colliding key `1000`, is the falsy value 0, total
1500 ms, and the two segments at 30 fps are contiguous from frame 0. -/
theorem timeline_sum_and_segments_contiguous_witness :
    Audio.noNonzeroDurationKeyHit [⟨1000⟩, ⟨500⟩] Audio.zeroCollidingDurations = true ∧
    (Audio.estimateTotalDuration [⟨1000⟩, ⟨500⟩] Audio.zeroCollidingDurations =
      ([(⟨1000⟩ : Audio.SceneDur), ⟨500⟩].map Audio.SceneDur.durationMs).sum ∧
     Browser.contiguousFrom 0 (Browser.computeSegments [⟨"a", 1000⟩, ⟨"b", 500⟩] 30) = true) :=
  ⟨by norm_num [Audio.noNonzeroDurationKeyHit, Audio.zeroCollidingDurations],
   timeline_sum_and_segments_contiguous [⟨1000⟩, ⟨500⟩] Audio.zeroCollidingDurations
     [⟨"a", 1000⟩, ⟨"b", 500⟩] 30
     (by norm_num [Audio.noNonzeroDurationKeyHit, Audio.zeroCollidingDurations])⟩

/-- C7: when every word of an alignment entry matching the keyword lies
below the confidence floor, the synchronizer's keyword map has no entry for
the keyword, so cue resolution returns the fixed fallback value — exactly
as when alignment is missing. -/
theorem low_confidence_words_fall_back (words : List Align.AlignWord) (floor : ℚ)
    (keyword : String) (fallbackPercent : ℚ)
    (h : Align.allBelowFloor words floor keyword = true) :
    Audio.getCueTime (some (Align.buildKeywordCues words floor)) keyword fallbackPercent =
      fallbackPercent ∧
    Audio.getCueTime (some (Align.buildKeywordCues words floor)) keyword fallbackPercent =
      Audio.getCueTime none keyword fallbackPercent := by
  have hnone : Align.buildKeywordCues words floor keyword = none := by
    unfold Align.buildKeywordCues
    have hfil : (words.filter fun w => w.word == keyword && decide (floor ≤ w.confidence)) = [] := by
      apply List.filter_eq_nil_iff.mpr
      intro w hw
      unfold Align.allBelowFloor at h
      have hall := List.all_eq_true.mp h w hw
      simp only [Bool.or_eq_true, Bool.not_eq_true', decide_eq_true_eq] at hall
      simp only [Bool.and_eq_true, decide_eq_true_eq, not_and]
      intro hkw
      rcases hall with hne | hlt
      · rw [hkw] at hne
        exact absurd hne (by simp)
      · exact not_le.mpr hlt
    rw [hfil]
    rfl
  simp [Audio.getCueTime, hnone]

/-- C7 witness: a single word "pinned" with confidence 1/10 against floor
1/2 yields the fallback 1/2, the same value as with no alignment at all. -/
theorem low_confidence_words_fall_back_witness :
    Align.allBelowFloor [⟨"pinned", 2, 5/2, 1/10⟩] (1/2) "pinned" = true ∧
    (Audio.getCueTime (some (Align.buildKeywordCues [⟨"pinned", 2, 5/2, 1/10⟩] (1/2)))
        "pinned" (1/2) = 1/2 ∧
     Audio.getCueTime (some (Align.buildKeywordCues [⟨"pinned", 2, 5/2, 1/10⟩] (1/2)))
        "pinned" (1/2) = Audio.getCueTime none "pinned" (1/2)) :=
  ⟨by norm_num [Align.allBelowFloor],
   low_confidence_words_fall_back [⟨"pinned", 2, 5/2, 1/10⟩] (1/2) "pinned" (1/2)
     (by norm_num [Align.allBelowFloor])⟩

/-- A representable `SceneAlt` carrying both a centipawn and a mate value. -/
def sceneAltBoth : Timeline.SceneAlt :=
  { id := "alt1", label := "Alt #1", pv := ["Nf3"], arrows := [],
    attacked := ⟨[], []⟩, cp := some 50, mate := some 3, durationMs := 2000,
    multipv := 1, cueTimes := none }

/-- C8: `cp` and `mate` are NOT mutually exclusive: `SceneAlt` admits a
scene carrying both `cp = 50` and `mate = 3`, and the `SceneAltPreview`
component renders both evaluation lines for it, not exactly one. -/
theorem sceneAltPreview_displays_both :
    Preview.sceneAltShowsCp sceneAltBoth = true ∧
    Preview.sceneAltShowsMate sceneAltBoth = true := by
  constructor <;>
    norm_num [Preview.sceneAltShowsCp, Preview.sceneAltShowsMate, Preview.truthyNum, sceneAltBoth]

/-- C8 (amended): the evaluation is carried in two distinct optional fields
`cp` and `mate`, never one numeric field, but the type does not enforce
mutual exclusion and the node preview renders the two lines independently;
the browser-safe preview displays at most one of the two evaluation lines,
with `cp` taking precedence. -/
theorem browserPreview_at_most_one_eval_line (s : Timeline.SceneAlt) :
    (Preview.browserSceneAltShowsCp s && Preview.browserSceneAltShowsMate s) = false := by
  unfold Preview.browserSceneAltShowsCp Preview.browserSceneAltShowsMate
  cases hc : s.cp <;> simp [hc]

/-- C10 witness: at 30 fps, frame 7 round-trips through milliseconds back to
frame 7. -/
theorem timeToFrame_frameToTime_roundtrip_witness :
    (0 : ℚ) < 30 ∧ Audio.timeToFrame (Browser.frameToTime ((7 : ℕ) : ℤ) 30) 30 = 7 :=
  ⟨by norm_num, timeToFrame_frameToTime_roundtrip 7 30 (by norm_num)⟩

end ChessAutopost
